import Mathlib

/-!
Shallow embedding of src/save_data_gi.py (Project-Reactor telemetry bridge).

The program is a single session loop: it receives byte chunks over TCP,
trims them, ignores chunks that do not start with "\x7b", parses the rest as
JSON, and dispatches on the "type" field:
  - "setup": records the experiment identity in the process-wide variable
    current_exp_number, inserts one row into the experiments table
    (UNIQUE on exp_number) and one row per reagent into the reagents table;
  - "stop": if current_exp_number is truthy, stamps end_time on the matching
    experiments rows and clears current_exp_number;
  - anything else: if current_exp_number is truthy, inserts one row into
    sensor_log tagged with current_exp_number.
A blanket "except Exception" around the whole body logs any error and
continues with the next chunk; the loop ends only when recv returns empty.

Modelling decisions:
  - JSON scalar values are JVal (number, string, boolean); absence of a
    field is Option.none, matching dict.get returning None.
  - SQLite tables are Lean lists of row structures; cursor.execute INSERT
    appends a row, UPDATE maps over rows.  The surrogate id column is the
    list position and is left implicit.  Commit boundaries are not
    modelled separately: the session never rolls back, so an executed
    insert is treated as stored.
  - Wall-clock time is an abstract Nat carried in the state; datetime now
    and CURRENT_TIMESTAMP both read it.
  - Python exceptions raised inside the try body are modelled by the
    handlers returning the state reached at the raise point (mutations
    made before the raise are kept, as in Python) together with
    some error; the loop discards the error and continues, which is
    exactly what the blanket except at line 185 does.
  - A lost persistence connection is modelled by the flag storeUp: when it
    is false every execute raises Err.storeUnavailable.
  - Python truthiness of current_exp_number (line 143 and line 155):
    both None and the empty string are falsy, so the guards test for
    some id with id nonempty.
-/

/-- JSON scalar value carried by a message field: a number, a string or a
boolean.  The program never inspects these values; it passes them through
to the store unchanged. -/
inductive JVal where
  | num (q : ℚ)
  | str (s : String)
  | bool (b : Bool)
deriving DecidableEq, Repr

/-- Row of the experiments table (DDL lines 14-21): exp_number is UNIQUE,
start_time is stamped at insert, end_time is null until a stop.  The
AUTOINCREMENT id is the position in the list. -/
structure ExperimentRow where
  exp_number : String
  operator : JVal
  description : JVal
  start_time : Nat
  end_time : Option Nat
deriving DecidableEq, Repr

/-- Row of the reagents table (DDL lines 23-28). -/
structure ReagentRow where
  exp_number : String
  reagent : JVal
  concentration : Option JVal
deriving DecidableEq, Repr

/-- Row of the sensor_log table (DDL lines 30-51): timestamp, the active
exp_number, and the fixed channel columns, each nullable. -/
structure SensorRow where
  timestamp : Nat
  exp_number : String
  temperature : Option JVal
  uv1 : Option JVal
  photodiode : Option JVal
  turbidity1 : Option JVal
  turbidity2 : Option JVal
  rgb1_r : Option JVal
  rgb1_g : Option JVal
  rgb1_b : Option JVal
  rgb2_r : Option JVal
  rgb2_g : Option JVal
  rgb2_b : Option JVal
  uv_led_state : Option JVal
  uv_intensity : Option JVal
  pump1_state : Option JVal
  pump2_state : Option JVal
  pump_speed : Option JVal
  flow_rate : Option JVal
deriving DecidableEq, Repr

/-- One entry of the reagents array of a setup message.  The setup handler
reads r at key "name" (KeyError when absent, hence Option) and
r.get of "concentration" with default None (line 134). -/
structure ReagentMsg where
  name : Option JVal
  concentration : Option JVal
deriving DecidableEq, Repr

/-- The experiment object of a setup message (accessed at lines 119-134).
expNo is the caller-supplied identity, a JSON string per the wire schema;
operator and description are read with bracket access (KeyError when
absent); reagents is read with exp.get defaulting to the empty list. -/
structure ExperimentMsg where
  expNo : Option String
  operator : Option JVal
  description : Option JVal
  reagents : Option (List ReagentMsg)
deriving DecidableEq, Repr

/-- A parsed JSON message object: the optional "type" discriminator, the
optional experiment payload, and the fixed sensor channel fields read by
parsed.get at lines 171-177.  A field absent from the JSON object is none. -/
structure Message where
  type : Option String
  experiment : Option ExperimentMsg
  temp : Option JVal
  uv1 : Option JVal
  photodiode : Option JVal
  turbidity : Option JVal
  turbidity2 : Option JVal
  rgb1_r : Option JVal
  rgb1_g : Option JVal
  rgb1_b : Option JVal
  rgb2_r : Option JVal
  rgb2_g : Option JVal
  rgb2_b : Option JVal
  uvLed : Option JVal
  uvIntensity : Option JVal
  pump : Option JVal
  pump2 : Option JVal
  pumpSpeed : Option JVal
  flowRate : Option JVal
deriving DecidableEq, Repr

/-- Errors that the try body of the main loop can raise: a KeyError on a
missing required field, the sqlite3 IntegrityError from the UNIQUE
constraint on exp_number (a duplicate-identity error), a json.loads
failure, and a lost persistence connection. -/
inductive Err where
  | keyError (field : String)
  | duplicateExperiment
  | malformedJson
  | storeUnavailable
deriving DecidableEq, Repr

/-- One received chunk, after decode and strip (lines 110-115): noise is a
chunk that does not start with "\x7b" (skipped silently, line 112); malformed
is a chunk that starts with "\x7b" but fails json.loads, such as the bytes
of "\x7bnot json"; msg is a successfully parsed JSON object. -/
inductive Chunk where
  | noise
  | malformed
  | msg (m : Message)
deriving DecidableEq, Repr

/-- Process state: the three tables, the process-wide current_exp_number
(line 65, None initially), whether the persistence connection is up, and
the abstract clock. -/
structure State where
  experiments : List ExperimentRow
  reagents : List ReagentRow
  sensor_log : List SensorRow
  current_exp_number : Option String
  storeUp : Bool
  time : Nat
deriving DecidableEq, Repr

/-- UPDATE experiments SET end_time = datetime(now) WHERE exp_number = id
(lines 144-147): stamps end_time on every matching row, touching no other
column; rows with a different exp_number are unchanged, and when no row
matches the table is returned as it was. -/
def recordStop (db : List ExperimentRow) (id : String) (t : Nat) : List ExperimentRow :=
  db.map (fun r => if r.exp_number = id then { r with end_time := some t } else r)

/-- The reagent loop of the setup handler (lines 130-135): for each entry,
evaluate r at key "name" (KeyError stops the loop, keeping the rows already
inserted) then execute the INSERT (which raises storeUnavailable when the
connection is down).  Returns the new reagents table and the error raised,
if any. -/
def insertReagents (up : Bool) (id : String) : List ReagentRow → List ReagentMsg → List ReagentRow × Option Err
  | db, [] => (db, none)
  | db, r :: rs =>
    match r.name with
    | none => (db, some (Err.keyError "name"))
    | some nm =>
      if up then
        insertReagents up id (db ++ [{ exp_number := id, reagent := nm, concentration := r.concentration }]) rs
      else (db, some Err.storeUnavailable)

/-- The setup handler (lines 118-139).  Order of effects follows the
source: parsed at key "experiment" (KeyError), exp at key "expNo"
(KeyError), assignment to current_exp_number at line 120, then the
experiments INSERT whose parameter tuple evaluates exp at "operator" and
exp at "description" left to right (KeyError before any store access);
the INSERT raises storeUnavailable when the connection is down and
duplicateExperiment when the UNIQUE constraint on exp_number fires; on
success the reagent loop runs.  Any raise returns the state reached so
far, as Python leaves mutations made before an exception in place. -/
def handleSetup (s : State) (m : Message) : State × Option Err :=
  match m.experiment with
  | none => (s, some (Err.keyError "experiment"))
  | some e =>
    match e.expNo with
    | none => (s, some (Err.keyError "expNo"))
    | some id =>
      let s1 : State := { s with current_exp_number := some id }
      match e.operator with
      | none => (s1, some (Err.keyError "operator"))
      | some opv =>
        match e.description with
        | none => (s1, some (Err.keyError "description"))
        | some dv =>
          if s1.storeUp then
            if s1.experiments.any (fun r => r.exp_number = id) then
              (s1, some Err.duplicateExperiment)
            else
              let s2 : State := { s1 with
                experiments := s1.experiments ++
                  [{ exp_number := id, operator := opv, description := dv,
                     start_time := s1.time, end_time := none }] }
              let res := insertReagents s2.storeUp id s2.reagents (e.reagents.getD [])
              ({ s2 with reagents := res.1 }, res.2)
          else (s1, some Err.storeUnavailable)

/-- The stop handler (lines 142-152): guarded by Python truthiness of
current_exp_number, so both None and the empty string skip the whole
block (no update, no clearing).  Otherwise the UPDATE stamps end_time on
the matching rows (raising storeUnavailable when the connection is down,
in which case current_exp_number is not cleared) and only then is
current_exp_number set back to None. -/
def handleStop (s : State) : State × Option Err :=
  match s.current_exp_number with
  | none => (s, none)
  | some id =>
    if id = "" then (s, none)
    else if s.storeUp then
      ({ s with experiments := recordStop s.experiments id s.time,
                current_exp_number := none }, none)
    else (s, some Err.storeUnavailable)

/-- The sensor branch (lines 155-179): if current_exp_number is falsy
(None or empty) the sample is ignored; otherwise one sensor_log row is
inserted, tagged with the current identity, each channel column taking the
message field of the same position in the INSERT (absent fields are None,
stored as null).  Note the column mapping: temperature takes temp,
turbidity1 takes turbidity, uv_led_state takes uvLed, uv_intensity takes
uvIntensity, pump1_state takes pump, pump2_state takes pump2. -/
def handleSensor (s : State) (m : Message) : State × Option Err :=
  match s.current_exp_number with
  | none => (s, none)
  | some id =>
    if id = "" then (s, none)
    else if s.storeUp then
      ({ s with sensor_log := s.sensor_log ++
          [{ timestamp := s.time, exp_number := id,
             temperature := m.temp, uv1 := m.uv1, photodiode := m.photodiode,
             turbidity1 := m.turbidity, turbidity2 := m.turbidity2,
             rgb1_r := m.rgb1_r, rgb1_g := m.rgb1_g, rgb1_b := m.rgb1_b,
             rgb2_r := m.rgb2_r, rgb2_g := m.rgb2_g, rgb2_b := m.rgb2_b,
             uv_led_state := m.uvLed, uv_intensity := m.uvIntensity,
             pump1_state := m.pump, pump2_state := m.pump2,
             pump_speed := m.pumpSpeed, flow_rate := m.flowRate }] }, none)
    else (s, some Err.storeUnavailable)

/-- Dispatch of one parsed message (lines 118, 142, 155): the setup branch
fires when the "type" field equals "setup", the stop branch when it equals
"stop", and every other object falls through to the sensor branch. -/
def handleMessage (s : State) (m : Message) : State × Option Err :=
  if m.type = some "setup" then handleSetup s m
  else if m.type = some "stop" then handleStop s
  else handleSensor s m

/-- One iteration of the try body (lines 109-187) on one chunk: noise is
skipped silently, a malformed chunk raises the json.loads error, and a
parsed message is dispatched.  The second component is the error caught by
the blanket except, if any. -/
def step (s : State) (c : Chunk) : State × Option Err :=
  match c with
  | Chunk.noise => (s, none)
  | Chunk.malformed => (s, some Err.malformedJson)
  | Chunk.msg m => handleMessage s m

/-- The session loop (lines 104-187): processes the chunks in order.  The
blanket except at line 185 catches every error raised by step and
continues with the next chunk, so the loop ends exactly when the stream of
chunks ends (recv returning empty). -/
def run (s : State) : List Chunk → State
  | [] => s
  | c :: cs => run (step s c).1 cs

/-- Number of experiments rows carrying a given exp_number. -/
def countExp (db : List ExperimentRow) (id : String) : Nat :=
  (db.filter (fun r => r.exp_number = id)).length

/-- Initial state of a session: empty tables, no current experiment, the
persistence connection up, the clock at zero. -/
def initState : State :=
  { experiments := [], reagents := [], sensor_log := [],
    current_exp_number := none, storeUp := true, time := 0 }

/-- Message with every field absent. -/
def emptyMsg : Message :=
  { type := none, experiment := none, temp := none, uv1 := none,
    photodiode := none, turbidity := none, turbidity2 := none,
    rgb1_r := none, rgb1_g := none, rgb1_b := none,
    rgb2_r := none, rgb2_g := none, rgb2_b := none,
    uvLed := none, uvIntensity := none, pump := none, pump2 := none,
    pumpSpeed := none, flowRate := none }

/-- Fully populated setup message for a given identity, with no reagents. -/
def setupMsg (id : String) : Message :=
  { emptyMsg with type := some "setup",
                  experiment := some { expNo := some id,
                                       operator := some (JVal.str "A"),
                                       description := some (JVal.str "d"),
                                       reagents := some [] } }

/-- Stop message. -/
def stopMsg : Message := { emptyMsg with type := some "stop" }

/-- Sensor sample carrying only a temperature reading. -/
def tempMsg : Message := { emptyMsg with temp := some (JVal.num 25) }

/-- Initial state with the persistence connection lost. -/
def downState : State := { initState with storeUp := false }

/-- State reached from the initial state by one successful setup of the
experiment RX-1. -/
def activeState : State := (step initState (Chunk.msg (setupMsg "RX-1"))).1

/-- Setup message whose single reagents entry has no name field. -/
def badReagentSetup : Message :=
  { emptyMsg with type := some "setup",
                  experiment := some { expNo := some "RX-2",
                                       operator := some (JVal.str "A"),
                                       description := some (JVal.str "d"),
                                       reagents := some [{ name := none,
                                                           concentration := some (JVal.num 1) }] } }

/-- Experiment payload with every field present and one named reagent
whose concentration is absent. -/
def fullExpMsg : ExperimentMsg :=
  { expNo := some "RX-1", operator := some (JVal.str "A"),
    description := some (JVal.str "d"),
    reagents := some [{ name := some (JVal.str "H2O2"), concentration := none }] }

/-- Setup message built from fullExpMsg. -/
def fullSetupMsg : Message :=
  { emptyMsg with type := some "setup", experiment := some fullExpMsg }

/-- Experiments row freshly inserted by the setup handler. -/
def newExpRow (id : String) (opv dv : JVal) (t : Nat) : ExperimentRow :=
  { exp_number := id, operator := opv, description := dv, start_time := t, end_time := none }

/-- Reagents row built from one (named) reagents entry of a setup message. -/
def reagentRowOf (id : String) (r : ReagentMsg) : ReagentRow :=
  { exp_number := id, reagent := r.name.getD (JVal.str ""), concentration := r.concentration }

/-- Sensor_log row built from a message and the active identity: the
column mapping of the INSERT at lines 159-178. -/
def sensorRowOf (m : Message) (id : String) (t : Nat) : SensorRow :=
  { timestamp := t, exp_number := id,
    temperature := m.temp, uv1 := m.uv1, photodiode := m.photodiode,
    turbidity1 := m.turbidity, turbidity2 := m.turbidity2,
    rgb1_r := m.rgb1_r, rgb1_g := m.rgb1_g, rgb1_b := m.rgb1_b,
    rgb2_r := m.rgb2_r, rgb2_g := m.rgb2_g, rgb2_b := m.rgb2_b,
    uv_led_state := m.uvLed, uv_intensity := m.uvIntensity,
    pump1_state := m.pump, pump2_state := m.pump2,
    pump_speed := m.pumpSpeed, flow_rate := m.flowRate }

/-- When every reagents entry carries a name and the store is up, the
reagent loop inserts one row per entry, in order, and raises nothing. -/
theorem insertReagents_all_named (id : String) :
    ∀ (rs : List ReagentMsg) (db : List ReagentRow),
      rs.all (fun r => r.name.isSome) = true →
      insertReagents true id db rs = (db ++ rs.map (reagentRowOf id), none) := by
  intro rs
  induction rs with
  | nil => intro db _; simp [insertReagents]
  | cons r rs ih =>
    intro db h
    simp only [List.all_cons, Bool.and_eq_true] at h
    obtain ⟨h1, h2⟩ := h
    obtain ⟨nm, hnm⟩ := Option.isSome_iff_exists.mp h1
    simp only [insertReagents, hnm, if_pos rfl, ih _ h2, List.map_cons,
      List.append_assoc, List.singleton_append, if_true]
    simp [reagentRowOf, hnm]

/-- When the first unnamed reagents entry is reached, the loop stops with a
KeyError on "name": the rows for the preceding (named) entries are kept,
the offending entry and everything after it are not inserted. -/
theorem insertReagents_unnamed (id : String) :
    ∀ (good : List ReagentMsg) (bad : ReagentMsg) (rest : List ReagentMsg) (db : List ReagentRow),
      good.all (fun r => r.name.isSome) = true →
      bad.name = none →
      insertReagents true id db (good ++ bad :: rest) =
        (db ++ good.map (reagentRowOf id), some (Err.keyError "name")) := by
  intro good
  induction good with
  | nil =>
    intro bad rest db _ hbad
    simp [insertReagents, hbad]
  | cons r rs ih =>
    intro bad rest db h hbad
    simp only [List.all_cons, Bool.and_eq_true] at h
    obtain ⟨h1, h2⟩ := h
    obtain ⟨nm, hnm⟩ := Option.isSome_iff_exists.mp h1
    simp only [List.cons_append, insertReagents, hnm, if_true, List.append_eq]
    rw [ih bad rest _ h2 hbad]
    simp [reagentRowOf, hnm, List.append_assoc]

/-- Successful setup: with the store up, a fresh identity and every
required field present, processing a setup message appends the experiment
row and one reagents row per entry, sets current_exp_number to the new
identity, and raises nothing. -/
theorem setup_success (s : State) (m : Message) (e : ExperimentMsg)
    (id : String) (opv dv : JVal)
    (hty : m.type = some "setup")
    (hexp : m.experiment = some e)
    (hid : e.expNo = some id)
    (hop : e.operator = some opv)
    (hdv : e.description = some dv)
    (hup : s.storeUp = true)
    (hfresh : s.experiments.any (fun r => r.exp_number = id) = false)
    (hrs : (e.reagents.getD []).all (fun r => r.name.isSome) = true) :
    step s (Chunk.msg m) =
      ({ s with current_exp_number := some id,
                experiments := s.experiments ++ [newExpRow id opv dv s.time],
                reagents := s.reagents ++ (e.reagents.getD []).map (reagentRowOf id) }, none) := by
  simp only [step, handleMessage, hty, if_pos rfl, handleSetup, hexp, hid, hop, hdv,
    hup, hfresh, Bool.false_eq_true, if_false, if_true,
    insertReagents_all_named id _ _ hrs, newExpRow]

/-- Colliding setup: when the identity of a setup message already occurs
in the experiments table (and the required fields up to the INSERT are
present, the store up), current_exp_number is assigned the colliding
identity first, then the INSERT raises the duplicate-identity error; the
tables are untouched. -/
theorem setup_duplicate (s : State) (m : Message) (e : ExperimentMsg)
    (id : String)
    (hty : m.type = some "setup")
    (hexp : m.experiment = some e)
    (hid : e.expNo = some id)
    (hop : e.operator.isSome = true)
    (hdv : e.description.isSome = true)
    (hup : s.storeUp = true)
    (hdup : s.experiments.any (fun r => r.exp_number = id) = true) :
    step s (Chunk.msg m) =
      ({ s with current_exp_number := some id }, some Err.duplicateExperiment) := by
  obtain ⟨opv, hop⟩ := Option.isSome_iff_exists.mp hop
  obtain ⟨dv, hdv⟩ := Option.isSome_iff_exists.mp hdv
  simp only [step, handleMessage, hty, if_pos rfl, handleSetup, hexp, hid, hop, hdv,
    hup, hdup, if_true]

/-- Every path through the setup handler leaves the sensor_log table
unchanged. -/
theorem handleSetup_sensor_log (s : State) (m : Message) :
    (handleSetup s m).1.sensor_log = s.sensor_log := by
  cases hexp : m.experiment with
  | none => simp [handleSetup, hexp]
  | some e =>
    cases hid : e.expNo with
    | none => simp [handleSetup, hexp, hid]
    | some id =>
      cases hop : e.operator with
      | none => simp [handleSetup, hexp, hid, hop]
      | some opv =>
        cases hdv : e.description with
        | none => simp [handleSetup, hexp, hid, hop, hdv]
        | some dv =>
          simp only [handleSetup, hexp, hid, hop, hdv]
          split_ifs <;> rfl

/-- Every path through the stop handler leaves the sensor_log table
unchanged. -/
theorem handleStop_sensor_log (s : State) :
    (handleStop s).1.sensor_log = s.sensor_log := by
  unfold handleStop
  repeat' split
  all_goals rfl

/-- One step either leaves sensor_log unchanged or appends exactly one row
whose exp_number is the (nonempty) identity that was current when the
chunk arrived. -/
theorem sensor_log_step (s : State) (c : Chunk) :
    (step s c).1.sensor_log = s.sensor_log ∨
    ∃ row, (step s c).1.sensor_log = s.sensor_log ++ [row] ∧
           s.current_exp_number = some row.exp_number ∧ row.exp_number ≠ "" := by
  cases c with
  | noise => left; rfl
  | malformed => left; rfl
  | msg m =>
    have hstep : step s (Chunk.msg m) = handleMessage s m := rfl
    rw [hstep]
    by_cases h1 : m.type = some "setup"
    · left
      simp only [handleMessage, h1, if_pos rfl]
      exact handleSetup_sensor_log s m
    · by_cases h2 : m.type = some "stop"
      · have hm : handleMessage s m = handleStop s := by
          simp [handleMessage, h1, h2]
        left
        rw [hm]
        exact handleStop_sensor_log s
      · have hm : handleMessage s m = handleSensor s m := by
          simp [handleMessage, h1, h2]
        rw [hm]
        cases hc : s.current_exp_number with
        | none => left; simp [handleSensor, hc]
        | some id =>
          by_cases hid : id = ""
          · left; simp [handleSensor, hc, hid]
          · by_cases hup : s.storeUp = true
            · right
              refine ⟨sensorRowOf m id s.time, ?_, ?_, ?_⟩
              · simp [handleSensor, hc, hid, hup, sensorRowOf]
              · simp [hc, sensorRowOf]
              · simpa [sensorRowOf] using hid
            · left; simp [handleSensor, hc, hid, hup]

/-- C2: sensor samples are only ever stored against the experiment that
was current at the moment they arrived.  First conjunct: with
current_exp_number cleared (the tracker Idle, as before any setup or
after a stop), no chunk whatsoever adds a sensor_log row.  Second
conjunct: any step either leaves sensor_log unchanged (in particular every
dropped sample) or appends exactly one row whose exp_number is the
identity that was current when the chunk arrived - never a null or stale
reference. -/
theorem c2_samples_reference_active_experiment (s : State) (c : Chunk) :
    (step { s with current_exp_number := none } c).1.sensor_log = s.sensor_log ∧
    ((step s c).1.sensor_log = s.sensor_log ∨
      ∃ row, (step s c).1.sensor_log = s.sensor_log ++ [row] ∧
             s.current_exp_number = some row.exp_number ∧ row.exp_number ≠ "") := by
  constructor
  · rcases sensor_log_step { s with current_exp_number := none } c with h | ⟨row, _, hcur, _⟩
    · exact h
    · exact absurd hcur (by simp)
  · exact sensor_log_step s c

/-- C1: two setup messages carrying the same identity leave exactly one
experiments row for that identity; the second insert is rejected by the
UNIQUE constraint and surfaces the duplicate-identity error, with the
experiments table exactly as the first setup left it. -/
theorem c1_duplicate_setup_one_row (s : State) (m : Message) (e : ExperimentMsg)
    (id : String) (opv dv : JVal)
    (hty : m.type = some "setup")
    (hexp : m.experiment = some e)
    (hid : e.expNo = some id)
    (hop : e.operator = some opv)
    (hdv : e.description = some dv)
    (hup : s.storeUp = true)
    (hfresh : s.experiments.any (fun r => r.exp_number = id) = false)
    (hrs : (e.reagents.getD []).all (fun r => r.name.isSome) = true) :
    countExp (step s (Chunk.msg m)).1.experiments id = 1 ∧
    (step (step s (Chunk.msg m)).1 (Chunk.msg m)).2 = some Err.duplicateExperiment ∧
    (step (step s (Chunk.msg m)).1 (Chunk.msg m)).1.experiments
      = (step s (Chunk.msg m)).1.experiments ∧
    countExp (step (step s (Chunk.msg m)).1 (Chunk.msg m)).1.experiments id = 1 := by
  have h1 := setup_success s m e id opv dv hty hexp hid hop hdv hup hfresh hrs
  have hnil : s.experiments.filter (fun r => r.exp_number = id) = [] := by
    rw [List.filter_eq_nil_iff]
    intro a ha
    have := List.any_eq_false.mp hfresh a ha
    simpa using this
  have hcount : countExp (step s (Chunk.msg m)).1.experiments id = 1 := by
    rw [h1]
    simp [countExp, List.filter_append, hnil, newExpRow]
  have h2 := setup_duplicate (step s (Chunk.msg m)).1 m e id hty hexp hid
    (by rw [hop]; rfl) (by rw [hdv]; rfl)
    (by rw [h1]; exact hup)
    (by rw [h1]; simp [newExpRow])
  refine ⟨hcount, ?_, ?_, ?_⟩
  · rw [h2]
  · rw [h2]
  · rw [h2]; exact hcount

/-- Witness for C1 at a concrete input: sending the same setup twice from
the initial state leaves one experiments row for the identity and the
second step surfaces the duplicate-identity error. -/
theorem c1_duplicate_setup_one_row_witness :
    countExp (step (step initState (Chunk.msg (setupMsg "RX-1"))).1
        (Chunk.msg (setupMsg "RX-1"))).1.experiments "RX-1" = 1 ∧
    (step (step initState (Chunk.msg (setupMsg "RX-1"))).1
        (Chunk.msg (setupMsg "RX-1"))).2 = some Err.duplicateExperiment := by
  have h := c1_duplicate_setup_one_row initState (setupMsg "RX-1")
    { expNo := some "RX-1", operator := some (JVal.str "A"),
      description := some (JVal.str "d"), reagents := some [] }
    "RX-1" (JVal.str "A") (JVal.str "d") rfl rfl rfl rfl rfl rfl (by decide) (by decide)
  exact ⟨h.2.2.2, h.2.1⟩

/-- C6: a malformed chunk (one that starts with the object marker but
fails JSON parsing, such as the bytes of "\x7bnot json") leaves the whole
state - in particular the row counts of all three tables - unchanged,
surfaces the parse error to the blanket handler, and the loop proceeds to
the rest of the stream; more generally the loop processes the remaining
chunks after any chunk whatsoever, so no single bad message ends the
session. -/
theorem c6_malformed_chunk_isolated (s : State) (c : Chunk) (cs : List Chunk) :
    step s Chunk.malformed = (s, some Err.malformedJson) ∧
    run s (Chunk.malformed :: cs) = run s cs ∧
    run s (c :: cs) = run (step s c).1 cs :=
  ⟨rfl, rfl, rfl⟩

/-- Dispatch lemma: a message whose type field is neither "setup" nor
"stop" reaches the sensor branch. -/
theorem handleMessage_sensor (s : State) (m : Message)
    (h1 : m.type ≠ some "setup") (h2 : m.type ≠ some "stop") :
    handleMessage s m = handleSensor s m := by
  simp [handleMessage, h1, h2]

/-- Sensor branch with a nonempty current identity and the store up:
exactly one row is appended, tagged with the current identity. -/
theorem handleSensor_active (s : State) (m : Message) (id : String)
    (hc : s.current_exp_number = some id) (hne : id ≠ "") (hup : s.storeUp = true) :
    handleSensor s m =
      ({ s with sensor_log := s.sensor_log ++ [sensorRowOf m id s.time] }, none) := by
  simp [handleSensor, hc, hne, hup, sensorRowOf]

/-- One step on a sensor message while a nonempty identity is current and
the store is up appends exactly one tagged row. -/
theorem step_sensor_active (s : State) (m : Message) (id : String)
    (h1 : m.type ≠ some "setup") (h2 : m.type ≠ some "stop")
    (hc : s.current_exp_number = some id) (hne : id ≠ "") (hup : s.storeUp = true) :
    step s (Chunk.msg m) =
      ({ s with sensor_log := s.sensor_log ++ [sensorRowOf m id s.time] }, none) := by
  show handleMessage s m = _
  rw [handleMessage_sensor s m h1 h2, handleSensor_active s m id hc hne hup]

/-- The UPDATE of the stop path touches nothing when no row matches the
identity. -/
theorem recordStop_no_match (db : List ExperimentRow) (id : String) (t : Nat)
    (h : ∀ r ∈ db, r.exp_number ≠ id) :
    recordStop db id t = db := by
  induction db with
  | nil => rfl
  | cons r rs ih =>
    have hr : r.exp_number ≠ id := h r (by simp)
    have hrs : ∀ x ∈ rs, x.exp_number ≠ id := fun x hx => h x (by simp [hx])
    simp [recordStop, hr] at ih ⊢
    exact ih hrs

/-- C3 counterexample: a setup whose identity is the empty string is
accepted (no error, one experiments row, identity recorded as current),
yet the sensor sample that follows it - after a Setup, before any Stop -
produces zero sensor_log rows, because the guard at line 155 tests Python
truthiness and the empty string is falsy. -/
theorem c3_sample_after_empty_setup_dropped :
    (step initState (Chunk.msg (setupMsg ""))).2 = none ∧
    (step initState (Chunk.msg (setupMsg ""))).1.current_exp_number = some "" ∧
    (step initState (Chunk.msg (setupMsg ""))).1.experiments.length = 1 ∧
    (run initState [Chunk.msg (setupMsg ""), Chunk.msg tempMsg]).sensor_log = [] := by
  decide

/-- C3 amended: for every sensor-sample message received while the current
experiment identity is nonempty (which holds after any setup whose expNo
is a nonempty string, until the next stop), exactly one sensor_log row is
appended; its exp_number is the current identity, each channel field
present in the message lands in its column, and each absent field is
stored as null (none).  The column mapping is the INSERT of lines 159-178:
temperature takes temp, turbidity1 takes turbidity, uv_led_state takes
uvLed, uv_intensity takes uvIntensity, pump1_state takes pump, pump2_state
takes pump2, and the rest take the field of the same name. -/
theorem c3_sample_logged_once (s : State) (m : Message) (id : String)
    (h1 : m.type ≠ some "setup") (h2 : m.type ≠ some "stop")
    (hc : s.current_exp_number = some id) (hne : id ≠ "") (hup : s.storeUp = true) :
    step s (Chunk.msg m) =
      ({ s with sensor_log := s.sensor_log ++
          [{ timestamp := s.time, exp_number := id,
             temperature := m.temp, uv1 := m.uv1, photodiode := m.photodiode,
             turbidity1 := m.turbidity, turbidity2 := m.turbidity2,
             rgb1_r := m.rgb1_r, rgb1_g := m.rgb1_g, rgb1_b := m.rgb1_b,
             rgb2_r := m.rgb2_r, rgb2_g := m.rgb2_g, rgb2_b := m.rgb2_b,
             uv_led_state := m.uvLed, uv_intensity := m.uvIntensity,
             pump1_state := m.pump, pump2_state := m.pump2,
             pump_speed := m.pumpSpeed, flow_rate := m.flowRate }] }, none) :=
  step_sensor_active s m id h1 h2 hc hne hup

/-- Witness for the amended C3 at a concrete input: in the state reached
by setting up RX-1, a temperature-only sample appends exactly one row,
tagged RX-1, with the temperature stored and every other channel null. -/
theorem c3_sample_logged_once_witness :
    step activeState (Chunk.msg tempMsg) =
      ({ activeState with sensor_log :=
          [{ timestamp := 0, exp_number := "RX-1",
             temperature := some (JVal.num 25), uv1 := none, photodiode := none,
             turbidity1 := none, turbidity2 := none,
             rgb1_r := none, rgb1_g := none, rgb1_b := none,
             rgb2_r := none, rgb2_g := none, rgb2_b := none,
             uv_led_state := none, uv_intensity := none,
             pump1_state := none, pump2_state := none,
             pump_speed := none, flow_rate := none }] }, none) := by
  have h := c3_sample_logged_once activeState tempMsg "RX-1"
    (by decide) (by decide) (by decide) (by decide) (by decide)
  exact h

/-- C4 counterexample: with the persistence connection down, processing a
setup raises the store-unavailable error, yet the session does not
terminate - the next chunk is still processed (the current identity ends
up being the one carried by the second message).  The blanket except at
line 185 catches the persistence failure like any other error. -/
theorem c4_store_failure_does_not_end_session :
    (step downState (Chunk.msg (setupMsg "A"))).2 = some Err.storeUnavailable ∧
    (step downState (Chunk.msg (setupMsg "A"))).1.current_exp_number = some "A" ∧
    (run downState [Chunk.msg (setupMsg "A"), Chunk.msg (setupMsg "B")]).current_exp_number
      = some "B" := by
  decide

/-- C4 amended: no error raised while processing a message - the
store-unavailable error included - terminates the session loop: after any
chunk that raises, the loop continues with the remaining chunks, so the
session ends only by clean transport closure (the end of the chunk
stream). -/
theorem c4_every_error_recovered (s : State) (c : Chunk) (cs : List Chunk) (e : Err)
    (h : (step s c).2 = some e) :
    run s (c :: cs) = run (step s c).1 cs :=
  rfl

/-- Witness for the amended C4 at a concrete input: the store-unavailable
error raised by the first setup with the connection down does not stop the
loop from processing the rest of the stream. -/
theorem c4_every_error_recovered_witness :
    run downState [Chunk.msg (setupMsg "A"), Chunk.msg (setupMsg "B")] =
      run (step downState (Chunk.msg (setupMsg "A"))).1 [Chunk.msg (setupMsg "B")] :=
  c4_every_error_recovered downState (Chunk.msg (setupMsg "A"))
    [Chunk.msg (setupMsg "B")] Err.storeUnavailable (by decide)

/-- C5 counterexample: a setup whose only reagents entry lacks a name
leaves the store in a partial state: the experiments row is inserted and
committed (line 127), then the reagent loop raises a KeyError, so zero
reagents rows are stored - the setup is neither fully stored nor fully
dropped. -/
theorem c5_partial_setup_persists :
    (step initState (Chunk.msg badReagentSetup)).1.experiments.length = 1 ∧
    (step initState (Chunk.msg badReagentSetup)).1.reagents = [] ∧
    (step initState (Chunk.msg badReagentSetup)).2 = some (Err.keyError "name") := by
  decide

/-- C5 amended: the setup handler is not atomic - it commits the
experiments row first (line 127) and the reagents rows in a second commit
(line 135).  When a reagents entry lacks its name, processing stops there:
the experiments row and the rows of the reagents preceding the bad entry
remain stored, the bad entry and everything after it are not, and the
KeyError is surfaced.  Partial setup state is therefore left in the
store. -/
theorem c5_setup_not_atomic (s : State) (m : Message) (e : ExperimentMsg)
    (id : String) (opv dv : JVal)
    (good : List ReagentMsg) (bad : ReagentMsg) (rest : List ReagentMsg)
    (hty : m.type = some "setup")
    (hexp : m.experiment = some e)
    (hid : e.expNo = some id)
    (hop : e.operator = some opv)
    (hdv : e.description = some dv)
    (hup : s.storeUp = true)
    (hfresh : s.experiments.any (fun r => r.exp_number = id) = false)
    (hgood : good.all (fun r => r.name.isSome) = true)
    (hbad : bad.name = none)
    (hr : e.reagents = some (good ++ bad :: rest)) :
    step s (Chunk.msg m) =
      ({ s with current_exp_number := some id,
                experiments := s.experiments ++ [newExpRow id opv dv s.time],
                reagents := s.reagents ++ good.map (reagentRowOf id) },
       some (Err.keyError "name")) := by
  simp only [step, handleMessage, hty, if_pos rfl, handleSetup, hexp, hid, hop, hdv,
    hup, hfresh, Bool.false_eq_true, if_false, if_true, hr, Option.getD_some]
  rw [insertReagents_unnamed id good bad rest s.reagents hgood hbad]
  simp [newExpRow]

/-- Witness for the amended C5 at a concrete input: the bad-reagent setup
stores the experiments row, no reagents row, and surfaces the KeyError. -/
theorem c5_setup_not_atomic_witness :
    step initState (Chunk.msg badReagentSetup) =
      ({ initState with current_exp_number := some "RX-2",
                        experiments := [newExpRow "RX-2" (JVal.str "A") (JVal.str "d") 0] },
       some (Err.keyError "name")) := by
  have h := c5_setup_not_atomic initState badReagentSetup
    { expNo := some "RX-2", operator := some (JVal.str "A"),
      description := some (JVal.str "d"),
      reagents := some [{ name := none, concentration := some (JVal.num 1) }] }
    "RX-2" (JVal.str "A") (JVal.str "d")
    [] { name := none, concentration := some (JVal.num 1) } []
    rfl rfl rfl rfl rfl rfl (by decide) (by decide) rfl rfl
  exact h

/-- C7 counterexample: a setup message carrying its identity but no
operator field is dropped whole with a KeyError - nothing is persisted -
contradicting the claim that only a missing expNo is a hard error and any
other missing field surfaces as null in the stored row. -/
theorem c7_missing_operator_drops_message :
    (step initState (Chunk.msg { fullSetupMsg with experiment := some { fullExpMsg with operator := none } })).2
      = some (Err.keyError "operator") ∧
    (step initState (Chunk.msg { fullSetupMsg with experiment := some { fullExpMsg with operator := none } })).1.experiments
      = [] := by
  decide

/-- C7 amended: on a setup message the absence of any of expNo, operator,
description, or a reagents entry name is a hard error that aborts the
message (the first three before anything is persisted; a missing reagent
name after the experiments row is already stored); only a reagent
concentration - like the sensor channel fields of a sample message -
surfaces as null in the stored row.  Scenario (1): expNo absent, nothing
changes at all.  (2) and (3): operator or description absent, the only
effect is the already-performed assignment of current_exp_number.  (4):
reagent name absent, the experiments row is stored, no reagents row is.
(5): all required fields present with the concentration absent, the setup
succeeds and stores the concentration as null. -/
theorem c7_required_setup_fields (s : State) (m : Message) (e : ExperimentMsg)
    (id : String) (opv dv nm : JVal)
    (hty : m.type = some "setup")
    (hup : s.storeUp = true)
    (hfresh : s.experiments.any (fun r => r.exp_number = id) = false)
    (hexp : m.experiment = some e)
    (he : e = { expNo := some id, operator := some opv, description := some dv,
                reagents := some [{ name := some nm, concentration := none }] }) :
    step s (Chunk.msg { m with experiment := some { e with expNo := none } })
      = (s, some (Err.keyError "expNo")) ∧
    step s (Chunk.msg { m with experiment := some { e with operator := none } })
      = ({ s with current_exp_number := some id }, some (Err.keyError "operator")) ∧
    step s (Chunk.msg { m with experiment := some { e with description := none } })
      = ({ s with current_exp_number := some id }, some (Err.keyError "description")) ∧
    step s (Chunk.msg { m with experiment := some { e with reagents := some [{ name := none, concentration := none }] } })
      = ({ s with current_exp_number := some id,
                  experiments := s.experiments ++ [newExpRow id opv dv s.time] },
         some (Err.keyError "name")) ∧
    step s (Chunk.msg m)
      = ({ s with current_exp_number := some id,
                  experiments := s.experiments ++ [newExpRow id opv dv s.time],
                  reagents := s.reagents ++ [{ exp_number := id, reagent := nm,
                                               concentration := none }] }, none) := by
  subst he
  refine ⟨?_, ?_, ?_, ?_, ?_⟩
  · simp [step, handleMessage, hty, handleSetup]
  · simp [step, handleMessage, hty, handleSetup]
  · simp [step, handleMessage, hty, handleSetup]
  · simp [step, handleMessage, hty, handleSetup, hup, hfresh, insertReagents, newExpRow]
  · simp [step, handleMessage, hty, handleSetup, hexp, hup, hfresh, insertReagents, newExpRow]

/-- Witness for the amended C7 at concrete inputs: dropping the operator
from the full setup message aborts it with only the current-identity
assignment done, while the full message (whose reagent has no
concentration) succeeds and stores the concentration as null. -/
theorem c7_required_setup_fields_witness :
    step initState (Chunk.msg { fullSetupMsg with experiment := some { fullExpMsg with operator := none } })
      = ({ initState with current_exp_number := some "RX-1" },
         some (Err.keyError "operator")) ∧
    step initState (Chunk.msg fullSetupMsg)
      = ({ initState with current_exp_number := some "RX-1",
                          experiments := [newExpRow "RX-1" (JVal.str "A") (JVal.str "d") 0],
                          reagents := [{ exp_number := "RX-1", reagent := JVal.str "H2O2",
                                         concentration := none }] }, none) := by
  have h := c7_required_setup_fields initState fullSetupMsg fullExpMsg
    "RX-1" (JVal.str "A") (JVal.str "d") (JVal.str "H2O2")
    rfl rfl (by decide) rfl rfl
  exact ⟨h.2.1, h.2.2.2.2⟩

/-- C8 counterexample: with RX-1 already active, a setup carrying the
empty-string identity is processed; current_exp_number is overwritten with
the empty identity, but the subsequent sensor sample is not attributed to
the new identity - it is dropped entirely (zero sensor_log rows), because
the guard at line 155 treats the empty string as no active experiment. -/
theorem c8_empty_new_identity_not_attributed :
    (step initState (Chunk.msg (setupMsg "A"))).1.current_exp_number = some "A" ∧
    (run initState [Chunk.msg (setupMsg "A"), Chunk.msg (setupMsg "")]).current_exp_number
      = some "" ∧
    (run initState [Chunk.msg (setupMsg "A"), Chunk.msg (setupMsg ""),
        Chunk.msg tempMsg]).sensor_log = [] := by
  decide

/-- C8 amended: a setup received while the tracker is already Active is
accepted as a new, independent experiment with no stop required: the
current identity is overwritten with the new one, the new experiments row
is inserted, and - provided the new identity is nonempty - every
subsequent sensor sample is attributed to the new identity. -/
theorem c8_setup_while_active_overwrites (s : State) (m m2 : Message)
    (e : ExperimentMsg) (oldId id : String) (opv dv : JVal)
    (hact : s.current_exp_number = some oldId)
    (hty : m.type = some "setup")
    (hexp : m.experiment = some e)
    (hid : e.expNo = some id)
    (hop : e.operator = some opv)
    (hdv : e.description = some dv)
    (hup : s.storeUp = true)
    (hfresh : s.experiments.any (fun r => r.exp_number = id) = false)
    (hrs : (e.reagents.getD []).all (fun r => r.name.isSome) = true)
    (hne : id ≠ "")
    (h1 : m2.type ≠ some "setup") (h2 : m2.type ≠ some "stop") :
    (step s (Chunk.msg m)).1.current_exp_number = some id ∧
    (step s (Chunk.msg m)).1.experiments = s.experiments ++ [newExpRow id opv dv s.time] ∧
    (step (step s (Chunk.msg m)).1 (Chunk.msg m2)).1.sensor_log
      = s.sensor_log ++ [sensorRowOf m2 id s.time] ∧
    (step (step s (Chunk.msg m)).1 (Chunk.msg m2)).1.current_exp_number = some id := by
  have hs := setup_success s m e id opv dv hty hexp hid hop hdv hup hfresh hrs
  have hs2 := step_sensor_active (step s (Chunk.msg m)).1 m2 id h1 h2
    (by rw [hs]) hne (by rw [hs]; exact hup)
  refine ⟨by rw [hs], by rw [hs], ?_, ?_⟩
  · rw [hs2, hs]
  · rw [hs2, hs]

/-- Witness for the amended C8 at concrete inputs: with RX-1 active, a
setup for RX-2 overwrites the current identity and the following sample is
attributed to RX-2. -/
theorem c8_setup_while_active_overwrites_witness :
    (step activeState (Chunk.msg (setupMsg "RX-2"))).1.current_exp_number = some "RX-2" ∧
    (step (step activeState (Chunk.msg (setupMsg "RX-2"))).1 (Chunk.msg tempMsg)).1.sensor_log
      = activeState.sensor_log ++ [sensorRowOf tempMsg "RX-2" 0] := by
  have h := c8_setup_while_active_overwrites activeState (setupMsg "RX-2") tempMsg
    { expNo := some "RX-2", operator := some (JVal.str "A"),
      description := some (JVal.str "d"), reagents := some [] }
    "RX-1" "RX-2" (JVal.str "A") (JVal.str "d")
    rfl rfl rfl rfl rfl rfl rfl (by decide) (by decide) (by decide) (by decide) (by decide)
  exact ⟨h.1, h.2.2.1⟩

/-- C9 counterexample: after a setup with the empty-string identity the
tracker holds an active experiment (the setup succeeded, its row is in the
experiments table, the identity is current), yet a stop event is a
complete no-op: no end_time is stamped and the current identity is not
cleared, because the guard at line 143 treats the empty string as falsy. -/
theorem c9_stop_ignores_empty_identity :
    (step initState (Chunk.msg (setupMsg ""))).1.current_exp_number = some "" ∧
    (step initState (Chunk.msg (setupMsg ""))).1.experiments.length = 1 ∧
    step (step initState (Chunk.msg (setupMsg ""))).1 (Chunk.msg stopMsg)
      = ((step initState (Chunk.msg (setupMsg ""))).1, none) ∧
    (run initState [Chunk.msg (setupMsg ""), Chunk.msg stopMsg]).experiments
      = [newExpRow "" (JVal.str "A") (JVal.str "d") 0] := by
  decide

/-- C9 amended: a stop received while a nonempty identity is current
stamps end_time = current time on the matching experiments rows (touching
no other column, table or field except the cleared current identity) and
transitions the tracker to Idle; a stop received while current is None is
a no-op, as is a stop received while the current identity is the empty
string (which, however, also fails to clear the identity); and the UPDATE
against an identity with no matching row changes nothing.  The last
conjunct shows recordStop only sets end_time on the matching row. -/
theorem c9_stop_transitions (s s2 s3 : State) (m : Message) (id : String)
    (db : List ExperimentRow) (id2 : String) (t : Nat) (row : ExperimentRow)
    (hty : m.type = some "stop")
    (hact : s.current_exp_number = some id)
    (hne : id ≠ "")
    (hup : s.storeUp = true)
    (hidle : s2.current_exp_number = none)
    (hempty : s3.current_exp_number = some "")
    (hnom : ∀ r ∈ db, r.exp_number ≠ id2) :
    step s (Chunk.msg m)
      = ({ s with experiments := recordStop s.experiments id s.time,
                  current_exp_number := none }, none) ∧
    step s2 (Chunk.msg m) = (s2, none) ∧
    step s3 (Chunk.msg m) = (s3, none) ∧
    recordStop db id2 t = db ∧
    recordStop [row] row.exp_number t = [{ row with end_time := some t }] := by
  refine ⟨?_, ?_, ?_, recordStop_no_match db id2 t hnom, ?_⟩
  · simp [step, handleMessage, hty, handleStop, hact, hne, hup]
  · simp [step, handleMessage, hty, handleStop, hidle]
  · simp [step, handleMessage, hty, handleStop, hempty]
  · simp [recordStop]

/-- Witness for the amended C9 at concrete inputs: stopping the active
RX-1 session stamps its end_time and clears the tracker; a stop in the
initial (Idle) state changes nothing. -/
theorem c9_stop_transitions_witness :
    step activeState (Chunk.msg stopMsg)
      = ({ activeState with experiments := recordStop activeState.experiments "RX-1" 0,
                            current_exp_number := none }, none) ∧
    step initState (Chunk.msg stopMsg) = (initState, none) := by
  have h := c9_stop_transitions activeState initState
    (step initState (Chunk.msg (setupMsg ""))).1 stopMsg "RX-1"
    [] "Z" 0 (newExpRow "RX-1" (JVal.str "A") (JVal.str "d") 0)
    rfl rfl (by decide) rfl rfl (by decide) (by intro r hr; cases hr)
  exact ⟨h.1, h.2.1⟩

/-- C10 counterexample: when the colliding identity is the empty string
the claim fails in its attribution part.  A first setup with expNo = ""
succeeds; a second setup with the same identity is rejected by the
uniqueness constraint with current_exp_number already reassigned to "",
but the subsequent sensor sample is not stored under that exp_number - it
is dropped, because the guard at line 155 treats the empty string as no
active experiment. -/
theorem c10_duplicate_empty_identity_drops_samples :
    (step (step initState (Chunk.msg (setupMsg ""))).1 (Chunk.msg (setupMsg ""))).2
      = some Err.duplicateExperiment ∧
    (step (step initState (Chunk.msg (setupMsg ""))).1 (Chunk.msg (setupMsg ""))).1.current_exp_number
      = some "" ∧
    (run initState [Chunk.msg (setupMsg ""), Chunk.msg (setupMsg ""),
        Chunk.msg tempMsg]).sensor_log = [] := by
  decide

/-- C10 amended: on a setup whose identity collides with an existing
experiments row, current_exp_number is assigned the colliding identity
before the INSERT is attempted, so after the INSERT fails with the
duplicate-identity error the tracker remains Active under that identity
(the tables untouched), and - provided the identity is nonempty - every
subsequent sensor sample is stored under that exp_number, i.e. attributed
to the pre-existing experiments row. -/
theorem c10_duplicate_setup_keeps_identity (s : State) (m m2 : Message)
    (e : ExperimentMsg) (id : String)
    (hty : m.type = some "setup")
    (hexp : m.experiment = some e)
    (hid : e.expNo = some id)
    (hop : e.operator.isSome = true)
    (hdv : e.description.isSome = true)
    (hup : s.storeUp = true)
    (hdup : s.experiments.any (fun r => r.exp_number = id) = true)
    (hne : id ≠ "")
    (h1 : m2.type ≠ some "setup") (h2 : m2.type ≠ some "stop") :
    step s (Chunk.msg m) = ({ s with current_exp_number := some id },
                            some Err.duplicateExperiment) ∧
    (step (step s (Chunk.msg m)).1 (Chunk.msg m2)).1.sensor_log
      = s.sensor_log ++ [sensorRowOf m2 id s.time] ∧
    (step (step s (Chunk.msg m)).1 (Chunk.msg m2)).1.current_exp_number = some id := by
  have hs := setup_duplicate s m e id hty hexp hid hop hdv hup hdup
  have hs2 := step_sensor_active (step s (Chunk.msg m)).1 m2 id h1 h2
    (by rw [hs]) hne (by rw [hs]; exact hup)
  refine ⟨hs, ?_, ?_⟩
  · rw [hs2, hs]
  · rw [hs2, hs]

/-- Witness for the amended C10 at concrete inputs: re-sending the RX-1
setup in the state where RX-1 already exists surfaces the duplicate error,
keeps RX-1 current, and the following sample is stored under RX-1. -/
theorem c10_duplicate_setup_keeps_identity_witness :
    step activeState (Chunk.msg (setupMsg "RX-1"))
      = ({ activeState with current_exp_number := some "RX-1" },
         some Err.duplicateExperiment) ∧
    (step (step activeState (Chunk.msg (setupMsg "RX-1"))).1 (Chunk.msg tempMsg)).1.sensor_log
      = activeState.sensor_log ++ [sensorRowOf tempMsg "RX-1" 0] := by
  have h := c10_duplicate_setup_keeps_identity activeState (setupMsg "RX-1") tempMsg
    { expNo := some "RX-1", operator := some (JVal.str "A"),
      description := some (JVal.str "d"), reagents := some [] }
    "RX-1" rfl rfl rfl rfl rfl rfl (by decide) (by decide) (by decide) (by decide)
  exact ⟨h.1, h.2.1⟩
